import Mathlib

/-!
# SnapConnect — verification of the ephemeral-content lifecycle spec

Shallow embedding of the Firestore/Storage-backed services of the
SnapConnect repository.  Documents are modelled as association lists
keyed by document id, timestamps as natural numbers (milliseconds), and
each TypeScript service function as a pure Lean function on a `DB`
state.  Fallible operations return `Except SvcError DB`.

Sources embedded here:
* `src/services/firebase/userService.ts` — `createFriendshipId`,
  `sendFriendRequest`, `acceptFriendRequest`, `declineFriendRequest`,
  `subscribeToFriends` (derived friend list).
* the tip service (`src/unnamed/part_017`) — `createTip`,
  `getTipsForUser`, `markTipAsViewed`, `createSignalTip`.
* `src/services/firebase/snapService.ts` — `sendSnap`,
  `markSnapAsViewed`, `subscribeToSnaps`.
* `src/services/firebase/signalService.ts` — `createSignal`,
  `getFriendsSignals`.
* `src/services/firebase/storyService` part — `createStory`.
* `src/functions/src/index.ts` — `onUserDelete` cleanup trigger.
* `src/hooks/useAuth.ts` — `signUp` (username + profile transaction).
* `src/app/modal.tsx` — `handleTickerChange` ticker normalization.
-/

namespace SnapConnect

/-- A Firestore-style collection: an association list from document id
to document. -/
abbrev Coll (α : Type) := List (String × α)

/-- Firestore `getDoc`: the document stored under key `k`, if any. -/
def getDoc (c : Coll α) (k : String) : Option α :=
  (c.find? (fun kv => kv.1 == k)).map (fun kv => kv.2)

/-- Firestore `setDoc`: overwrite (or create) the document at key `k`.
Document ids are unique, so every other entry with the same key is
dropped. -/
def setDoc (c : Coll α) (k : String) (v : α) : Coll α :=
  (k, v) :: c.filter (fun kv => kv.1 != k)

/-- Firestore `deleteDoc`: remove the document at key `k`. -/
def deleteDoc (c : Coll α) (k : String) : Coll α :=
  c.filter (fun kv => kv.1 != k)

/-- Error outcomes of the embedded service functions. -/
inductive SvcError where
  | selfFriendRequest
  | noFriendsForSignal
  | usernameTaken
  | usernameTooLong
  | notFound
deriving DecidableEq, Repr

/-- A document in the `users` collection (`useAuth.ts` sign-up shape). -/
structure UserDoc where
  uid : String
  username : String
  displayName : String
  email : String
  createdAt : Nat
deriving DecidableEq, Repr

/-- A document in the `friendships` collection (`userService.ts`). -/
structure FriendshipDoc where
  members : List String
  requestedBy : String
  status : String
  createdAt : Nat
deriving DecidableEq, Repr

/-- A document in the `tips` collection (tip service, `part_017`). -/
structure TipDoc where
  senderId : String
  recipientId : String
  mediaUrl : String
  ticker : String
  tip : String
  viewed : Bool
  isSignal : Bool
  createdAt : Nat
  expiresAt : Nat
deriving DecidableEq, Repr

/-- A document in the `snaps` collection (`snapService.ts`). -/
structure SnapDoc where
  senderId : String
  senderDisplayName : String
  recipientId : String
  mediaUrl : String
  viewed : Bool
  createdAt : Nat
  expiresAt : Nat
deriving DecidableEq, Repr

/-- A document in the `signals` collection (`signalService.ts`):
note that it has `postedBy` and no recipient field. -/
structure SignalDoc where
  postedBy : String
  mediaUrl : String
  createdAt : Nat
  expiresAt : Nat
deriving DecidableEq, Repr

/-- A document in the `stories` collection (story service). -/
structure StoryDoc where
  userId : String
  mediaUrl : String
  mediaType : String
  createdAt : Nat
  expiresAt : Nat
deriving DecidableEq, Repr

/-- The document store, the blob store (a list of storage paths), and a
counter supplying fresh auto-generated document ids for `addDoc`. -/
structure DB where
  users : Coll UserDoc
  usernames : Coll String
  friendships : Coll FriendshipDoc
  tips : Coll TipDoc
  snaps : Coll SnapDoc
  signals : Coll SignalDoc
  stories : Coll StoryDoc
  blobs : List String
  nextId : Nat
deriving DecidableEq, Repr

/-- The empty store. -/
def emptyDB : DB :=
  { users := [], usernames := [], friendships := [], tips := [],
    snaps := [], signals := [], stories := [], blobs := [], nextId := 0 }

/-- The fixed 24-hour TTL, in milliseconds. -/
def dayMs : Nat := 24 * 60 * 60 * 1000

/-- Whether an `Except` result is a success. -/
def exOk (e : Except SvcError DB) : Bool :=
  match e with
  | .ok _ => true
  | .error _ => false

/-! ## Relationship graph (`userService.ts`) -/

/-- Lexicographic comparison of character lists by code point, the
order used by the JavaScript default `Array.sort` on strings. -/
def charListLe : List Char → List Char → Bool
  | [], _ => true
  | _ :: _, [] => false
  | a :: as, b :: bs =>
      if a.toNat < b.toNat then true
      else if b.toNat < a.toNat then false
      else charListLe as bs

/-- String comparison by code points (JavaScript `<=` on strings). -/
def strLeB (a b : String) : Bool := charListLe a.data b.data

/-- `createFriendshipId` (userService.ts:89): the two uids sorted and
joined with an underscore, the canonical key of the unordered pair. -/
def createFriendshipId (uid1 uid2 : String) : String :=
  if strLeB uid1 uid2 then uid1 ++ "_" ++ uid2 else uid2 ++ "_" ++ uid1

/-- The sorted member pair `[uid1, uid2].sort()` stored in the
friendship document. -/
def sortPair (uid1 uid2 : String) : List String :=
  if strLeB uid1 uid2 then [uid1, uid2] else [uid2, uid1]

/-- The pending friendship document written by `sendFriendRequest`:
sorted member pair, requesting user, pending status. -/
def pendingFriendship (fromUserId toUserId : String) (now : Nat) : FriendshipDoc :=
  { members := sortPair fromUserId toUserId,
    requestedBy := fromUserId,
    status := "pending",
    createdAt := now }

/-- `sendFriendRequest` (userService.ts:99): rejects self-requests,
then unconditionally `setDoc`s a fresh pending document at the
canonical pair key. -/
def sendFriendRequest (db : DB) (fromUserId toUserId : String) (now : Nat) :
    Except SvcError DB :=
  if fromUserId = toUserId then .error .selfFriendRequest
  else
    .ok { db with
      friendships := setDoc db.friendships (createFriendshipId fromUserId toUserId)
        (pendingFriendship fromUserId toUserId now) }

/-- `acceptFriendRequest` (userService.ts:162): `updateDoc` setting
`status` to accepted; `updateDoc` fails when the document is absent. -/
def acceptFriendRequest (db : DB) (requestId : String) : Except SvcError DB :=
  match getDoc db.friendships requestId with
  | none => .error .notFound
  | some f =>
      .ok { db with
        friendships := setDoc db.friendships requestId { f with status := "accepted" } }

/-- `declineFriendRequest` (userService.ts:177): deletes the request
document. -/
def declineFriendRequest (db : DB) (requestId : String) : DB :=
  { db with friendships := deleteDoc db.friendships requestId }

/-- The derived friend list of `subscribeToFriends` (userService.ts:198):
accepted friendships whose `members` contain the user, mapped to the
other member. -/
def friendIdsOf (db : DB) (userId : String) : List String :=
  ((db.friendships.filter
      (fun kv => kv.2.members.contains userId && (kv.2.status == "accepted"))).filterMap
    (fun kv => kv.2.members.find? (fun uid => uid != userId)))

/-! ## Tip service (`part_017`) -/

/-- The tip document written by `createTip` (part_017:33): ticker and
tip text default to the empty string, `viewed` starts false, and
`expiresAt` is stamped as creation time plus 24 hours. -/
def mkTipDoc (senderId recipientId mediaUrl : String)
    (ticker? tip? : Option String) (now : Nat) : TipDoc :=
  { senderId := senderId,
    recipientId := recipientId,
    mediaUrl := mediaUrl,
    ticker := ticker?.getD (""),
    tip := tip?.getD (""),
    viewed := false,
    isSignal := false,
    createdAt := now,
    expiresAt := now + dayMs }

/-- `createTip` (part_017:33): `addDoc` of a fresh tip document;
returns the new document id. -/
def createTip (db : DB) (senderId recipientId mediaUrl : String)
    (ticker? tip? : Option String) (now : Nat) : DB × String :=
  ({ db with
      tips := db.tips ++ [(toString db.nextId, mkTipDoc senderId recipientId mediaUrl ticker? tip? now)],
      nextId := db.nextId + 1 },
   toString db.nextId)

/-- `getTipsForUser` (part_017:66): recipient equals the user, not
viewed, not expired, ordered by `createdAt` descending. -/
def getTipsForUser (db : DB) (userId : String) (now : Nat) : Coll TipDoc :=
  (db.tips.filter
      (fun kv =>
        (kv.2.recipientId == userId) && (kv.2.viewed == false) &&
          decide (now < kv.2.expiresAt))).insertionSort
    (fun a b => b.2.createdAt ≤ a.2.createdAt)

/-- `markTipAsViewed` (part_017:91): `updateDoc` setting `viewed` to
true; `updateDoc` fails (and the service re-throws) when the tip is
absent. -/
def markTipAsViewed (db : DB) (tipId : String) : Except SvcError DB :=
  match getDoc db.tips tipId with
  | none => .error .notFound
  | some t => .ok { db with tips := setDoc db.tips tipId { t with viewed := true } }

/-- Firestore deletion of a tip document (the write performed by the
expiry sweep or an explicit delete; the `onTipDelete` trigger then
cleans the blob). -/
def deleteTip (db : DB) (tipId : String) : DB :=
  { db with tips := deleteDoc db.tips tipId }

/-- One fanned-out tip document of `createSignalTip` (part_017:126):
like a tip but flagged `isSignal` and addressed to a single friend. -/
def mkSignalTipDoc (senderId friendId mediaUrl : String)
    (ticker? tip? : Option String) (now : Nat) : TipDoc :=
  { senderId := senderId,
    recipientId := friendId,
    mediaUrl := mediaUrl,
    ticker := ticker?.getD (""),
    tip := tip?.getD (""),
    viewed := false,
    isSignal := true,
    createdAt := now,
    expiresAt := now + dayMs }

/-- The list of fanned-out tip documents, one per friend, with
consecutive auto-generated ids. -/
def mkSignalTipDocs (baseId : Nat) (senderId : String) (friendIds : List String)
    (mediaUrl : String) (ticker? tip? : Option String) (now : Nat) : Coll TipDoc :=
  match friendIds with
  | [] => []
  | f :: rest =>
      (toString baseId, mkSignalTipDoc senderId f mediaUrl ticker? tip? now) ::
        mkSignalTipDocs (baseId + 1) senderId rest mediaUrl ticker? tip? now

/-- `createSignalTip` (part_017:111): throws when the friend list is
empty, otherwise `addDoc`s one tip document per friend. -/
def createSignalTip (db : DB) (senderId : String) (friendIds : List String)
    (mediaUrl : String) (ticker? tip? : Option String) (now : Nat) :
    Except SvcError DB :=
  if friendIds.isEmpty then .error .noFriendsForSignal
  else
    .ok { db with
      tips := db.tips ++ mkSignalTipDocs db.nextId senderId friendIds mediaUrl ticker? tip? now,
      nextId := db.nextId + friendIds.length }

/-! ## Snap service (`snapService.ts`) -/

/-- The snap document written by `sendSnap` (snapService.ts:121). -/
def mkSnapDoc (senderId senderDisplayName recipientId mediaUrl : String)
    (now : Nat) : SnapDoc :=
  { senderId := senderId,
    senderDisplayName := senderDisplayName,
    recipientId := recipientId,
    mediaUrl := mediaUrl,
    viewed := false,
    createdAt := now,
    expiresAt := now + dayMs }

/-- `sendSnap` (snapService.ts:121): fails when the sender profile is
missing; otherwise uploads the blob to `snaps/senderId/now` and
`addDoc`s the snap document. -/
def sendSnap (db : DB) (senderId recipientId : String) (now : Nat) :
    Except SvcError DB :=
  match getDoc db.users senderId with
  | none => .error .notFound
  | some u =>
      let path := "snaps/" ++ senderId ++ "/" ++ toString now
      .ok { db with
        snaps := db.snaps ++
          [(toString db.nextId, mkSnapDoc senderId u.displayName recipientId path now)],
        blobs := db.blobs ++ [path],
        nextId := db.nextId + 1 }

/-- `markSnapAsViewed` (snapService.ts:160): `updateDoc` setting
`viewed` to true; the catch block swallows the error ("non-critical, so
we don't re-throw"), so a missing snap is NOT an error — the call
returns normally having changed nothing. -/
def markSnapAsViewed (db : DB) (snapId : String) : DB :=
  match getDoc db.snaps snapId with
  | none => db
  | some s => { db with snaps := setDoc db.snaps snapId { s with viewed := true } }

/-- The query of `subscribeToSnaps` (snapService.ts:176): recipient
equals the user and not expired — there is no filter on `viewed` — and
ordered by `expiresAt` descending. -/
def subscribeToSnaps (db : DB) (userId : String) (now : Nat) : Coll SnapDoc :=
  (db.snaps.filter
      (fun kv => (kv.2.recipientId == userId) && decide (now < kv.2.expiresAt))).insertionSort
    (fun a b => b.2.expiresAt ≤ a.2.expiresAt)

/-! ## Signal service (`signalService.ts`) -/

/-- The single signal document written by `createSignal`
(signalService.ts:42). -/
def mkSignalDoc (userId mediaUrl : String) (now : Nat) : SignalDoc :=
  { postedBy := userId,
    mediaUrl := mediaUrl,
    createdAt := now,
    expiresAt := now + dayMs }

/-- `createSignal` (signalService.ts:42): uploads one blob to
`signals/userId/now` and `addDoc`s exactly ONE signal document — there
is no per-friend fan-out on this path. -/
def createSignal (db : DB) (userId : String) (now : Nat) : DB × String :=
  let path := "signals/" ++ userId ++ "/" ++ toString now
  ({ db with
      signals := db.signals ++ [(toString db.nextId, mkSignalDoc userId path now)],
      blobs := db.blobs ++ [path],
      nextId := db.nextId + 1 },
   path)

/-- `getFriendsSignals` (signalService.ts:67): signals posted by any of
the given friends and not expired — the audience is joined at read
time from the caller's current friend list. -/
def getFriendsSignals (db : DB) (friendIds : List String) (now : Nat) :
    Coll SignalDoc :=
  if friendIds.isEmpty then []
  else
    (db.signals.filter
        (fun kv => friendIds.contains kv.2.postedBy && decide (now < kv.2.expiresAt))).insertionSort
      (fun a b => b.2.expiresAt ≤ a.2.expiresAt)

/-! ## Story service -/

/-- The story document written by `createStory`. -/
def mkStoryDoc (userId mediaUrl : String) (now : Nat) : StoryDoc :=
  { userId := userId,
    mediaUrl := mediaUrl,
    mediaType := "image",
    createdAt := now,
    expiresAt := now + dayMs }

/-- `createStory`: uploads one blob to `stories/userId/now` and
`addDoc`s the story document. -/
def createStory (db : DB) (userId : String) (now : Nat) : DB :=
  let path := "stories/" ++ userId ++ "/" ++ toString now
  { db with
    stories := db.stories ++ [(toString db.nextId, mkStoryDoc userId path now)],
    blobs := db.blobs ++ [path],
    nextId := db.nextId + 1 }

/-! ## Account-deletion cleanup (`functions/src/index.ts`) -/

/-- Whether one character list starts with another. -/
def listStartsWith : List Char → List Char → Bool
  | [], _ => true
  | _ :: _, [] => false
  | a :: as, b :: bs => (a == b) && listStartsWith as bs

/-- Whether the string `s` starts with `pre` — the storage prefix test
of `bucket.deleteFiles`. -/
def strStartsWith (pre s : String) : Bool := listStartsWith pre.data s.data

/-- `onUserDelete` (index.ts:324): reads the user's username, deletes
the `users` document, deletes the `usernames` reservation when a
(truthy) username was found, and prefix-deletes the blobs under
`tips/uid` and `signals/uid`.  Nothing else is touched: tips, snaps,
signals, stories and friendships documents all survive, as do blobs
under `snaps/uid` and `stories/uid`. -/
def onUserDelete (db : DB) (uid : String) : DB :=
  let username? := getDoc db.users uid
  let db1 := { db with users := deleteDoc db.users uid }
  let db2 :=
    match username? with
    | some u =>
        if u.username == "" then db1
        else { db1 with usernames := deleteDoc db1.usernames u.username }
    | none => db1
  { db2 with
    blobs := db2.blobs.filter
      (fun p => (!(strStartsWith ("tips/" ++ uid) p)) && (!(strStartsWith ("signals/" ++ uid) p))) }

/-! ## Sign-up (`useAuth.ts`) -/

/-- The characters of an email address before its first `@` — the
`email.split` step of the sign-up username derivation. -/
def localPartOfEmail : List Char → List Char
  | [] => []
  | c :: cs => if c == '@' then [] else c :: localPartOfEmail cs

/-- The username derived at sign-up (useAuth.ts:125): the part of the
email before the `@`, lowercased. -/
def usernameFromEmail (email : String) : String :=
  String.mk ((localPartOfEmail email.data).map Char.toLower)

/-- The profile document written at sign-up (useAuth.ts:141). -/
def mkUserProfile (uid username displayName email : String) (now : Nat) : UserDoc :=
  { uid := uid,
    username := username,
    displayName := displayName,
    email := email,
    createdAt := now }

/-- `signUp` (useAuth.ts:110): derives the username from the email,
rejects usernames longer than 24 characters, then runs a transaction
that aborts with an error when the username reservation already exists
and otherwise writes the profile document and the reservation together.
An error aborts the transaction, so no document is written in that
case. -/
def signUp (db : DB) (uid email displayName : String) (now : Nat) :
    Except SvcError DB :=
  if (usernameFromEmail email).length > 24 then .error .usernameTooLong
  else if (getDoc db.usernames (usernameFromEmail email)).isSome then .error .usernameTaken
  else
    .ok { db with
      users := setDoc db.users uid
        (mkUserProfile uid (usernameFromEmail email) displayName email now),
      usernames := setDoc db.usernames (usernameFromEmail email) uid }

/-! ## Ticker normalization (`app/modal.tsx`) -/

/-- The character class of the regex `[A-Za-z]` in `handleTickerChange`
(modal.tsx:85). -/
def isAsciiLetterChar (c : Char) : Bool :=
  (decide (97 ≤ c.toNat) && decide (c.toNat ≤ 122)) ||
    (decide (65 ≤ c.toNat) && decide (c.toNat ≤ 90))

/-- An uppercase ASCII letter, the character class of `^[A-Z]{1,5}$`. -/
def isUpperLetterChar (c : Char) : Bool :=
  decide (65 ≤ c.toNat) && decide (c.toNat ≤ 90)

/-- `handleTickerChange` (modal.tsx:83): strip non-letters, uppercase,
then silently truncate to at most 5 characters.  There is no rejection
path: an input with no letters yields the empty string. -/
def handleTickerChange (text : String) : String :=
  String.mk (((text.data.filter isAsciiLetterChar).map Char.toUpper).take 5)

/-! ## Concrete stores used as witnesses and counterexamples -/

/-- A tip sent by user `u`. -/
def tipFromU : TipDoc :=
  { senderId := "u", recipientId := "v", mediaUrl := "m", ticker := "",
    tip := "", viewed := false, isSignal := false, createdAt := 0,
    expiresAt := 86400000 }

/-- The profile of user `u`. -/
def userU : UserDoc :=
  { uid := "u", username := "ualice", displayName := "U", email := "u@x",
    createdAt := 0 }

/-- A store where user `u` has a profile, a username reservation, an
accepted friendship, a sent tip, and blobs under several categories. -/
def dbC1 : DB :=
  { users := [("u", userU)],
    usernames := [("ualice", "u")],
    friendships := [("u_v",
      { members := ["u", "v"], requestedBy := "u", status := "accepted", createdAt := 0 })],
    tips := [("t1", tipFromU)],
    snaps := [], signals := [], stories := [],
    blobs := ["snaps/u/1", "tips/u/1"],
    nextId := 5 }

/-- The store after `sendFriendRequest alice bob` on the empty store. -/
def dbC2mid : DB :=
  match sendFriendRequest emptyDB ("alice") ("bob") 1 with
  | .ok d => d
  | .error _ => emptyDB

/-- A snap that has already been viewed and has not yet expired. -/
def snapViewed : SnapDoc :=
  { senderId := "s", senderDisplayName := "S", recipientId := "u",
    mediaUrl := "m", viewed := true, createdAt := 0, expiresAt := 100 }

/-- A store holding one viewed, unexpired snap addressed to `u`. -/
def dbC3 : DB := { emptyDB with snaps := [("s1", snapViewed)] }

/-- A store where sender `s` has exactly two accepted friends. -/
def dbC4 : DB :=
  { emptyDB with friendships :=
      [("f1_s", { members := ["f1", "s"], requestedBy := "s", status := "accepted", createdAt := 0 }),
       ("f2_s", { members := ["f2", "s"], requestedBy := "s", status := "accepted", createdAt := 0 })] }

/-- A store holding one unviewed tip. -/
def dbC5 : DB := { emptyDB with tips := [("t1", tipFromU)] }

/-- A store where the username `alice` is already reserved. -/
def dbC9 : DB := { emptyDB with usernames := [("alice", "u0")] }

/-- The store produced by a successful sign-up of `u1`. -/
def dbSignedUp : DB :=
  match signUp emptyDB ("u1") ("alice@x.com") ("A") 3 with
  | .ok d => d
  | .error _ => emptyDB

/-- A store where alice and bob are already accepted friends. -/
def dbC10 : DB :=
  { emptyDB with friendships :=
      [(createFriendshipId ("alice") ("bob"),
        { members := sortPair ("alice") ("bob"), requestedBy := "bob",
          status := "accepted", createdAt := 0 })] }

/-! ## Collection lemmas -/

theorem getDoc_cons (kv : String × α) (c : Coll α) (k : String) :
    getDoc (kv :: c) k = if kv.1 = k then some kv.2 else getDoc c k := by
  by_cases h : kv.1 = k
  · simp [getDoc, List.find?_cons_of_pos, h]
  · simp [getDoc, List.find?_cons_of_neg, h]

theorem getDoc_filter_ne (c : Coll α) (k k2 : String) (h : k2 ≠ k) :
    getDoc (c.filter (fun kv => kv.1 != k)) k2 = getDoc c k2 := by
  induction c with
  | nil => rfl
  | cons kv rest ih =>
    rw [List.filter_cons]
    by_cases hk : kv.1 = k
    · rw [if_neg (by simp [hk] : ¬((kv.1 != k) = true))]
      rw [ih, getDoc_cons, if_neg (fun e => h (e.symm.trans hk))]
    · rw [if_pos (bne_iff_ne.mpr hk)]
      rw [getDoc_cons, getDoc_cons, ih]

theorem getDoc_setDoc_self (c : Coll α) (k : String) (v : α) :
    getDoc (setDoc c k v) k = some v := by
  rw [setDoc, getDoc_cons, if_pos rfl]

theorem getDoc_setDoc_ne (c : Coll α) (k k2 : String) (v : α) (h : k2 ≠ k) :
    getDoc (setDoc c k v) k2 = getDoc c k2 := by
  rw [setDoc, getDoc_cons, if_neg (fun e => h e.symm), getDoc_filter_ne c k k2 h]

theorem getDoc_deleteDoc_self (c : Coll α) (k : String) :
    getDoc (deleteDoc c k) k = none := by
  induction c with
  | nil => rfl
  | cons kv rest ih =>
    rw [deleteDoc, List.filter_cons]
    by_cases hk : kv.1 = k
    · rw [if_neg (by simp [hk] : ¬((kv.1 != k) = true))]
      exact ih
    · rw [if_pos (bne_iff_ne.mpr hk)]
      rw [getDoc_cons, if_neg hk]
      exact ih

theorem getDoc_deleteDoc_ne (c : Coll α) (k k2 : String) (h : k2 ≠ k) :
    getDoc (deleteDoc c k) k2 = getDoc c k2 :=
  getDoc_filter_ne c k k2 h

theorem filter_ne_filter_ne (c : Coll α) (k : String) :
    (c.filter (fun kv => kv.1 != k)).filter (fun kv => kv.1 != k) =
      c.filter (fun kv => kv.1 != k) := by
  rw [List.filter_filter]
  exact List.filter_congr (fun kv _ => Bool.and_self (kv.1 != k))

theorem setDoc_setDoc_self (c : Coll α) (k : String) (v w : α) :
    setDoc (setDoc c k v) k w = setDoc c k w := by
  rw [setDoc, setDoc, setDoc, List.filter_cons,
    if_neg (by simp : ¬(((k, v).1 != k) = true)), filter_ne_filter_ne]

theorem filter_key_setDoc (c : Coll α) (k : String) (v : α) :
    ((setDoc c k v).filter (fun kv => kv.1 == k)).length = 1 := by
  rw [setDoc, List.filter_cons, if_pos (by simp : (((k, v).1 == k) = true)),
    List.filter_filter]
  have : ∀ kv : String × α, kv ∈ c → ¬((kv.1 == k) && (kv.1 != k)) = true := by
    intro kv _ hb
    simp only [Bool.and_eq_true, beq_iff_eq, bne_iff_ne] at hb
    exact hb.2 hb.1
  rw [List.filter_eq_nil_iff.mpr this]
  rfl

/-! ## String-order lemmas -/

theorem charListLe_total (as : List Char) :
    ∀ bs, charListLe as bs = true ∨ charListLe bs as = true := by
  induction as with
  | nil => intro bs; left; rfl
  | cons a as ih =>
    intro bs
    cases bs with
    | nil => right; rfl
    | cons b bs =>
      by_cases h1 : a.toNat < b.toNat
      · left; simp [charListLe, h1]
      · by_cases h2 : b.toNat < a.toNat
        · right; simp [charListLe, h2]
        · rcases ih bs with h | h
          · left; simp [charListLe, h1, h2, h]
          · right; simp [charListLe, h2, h1, h]

theorem toNat_inj_char {a b : Char} (h : a.toNat = b.toNat) : a = b :=
  Char.eq_of_val_eq (UInt32.toNat.inj h)

theorem charListLe_antisymm (as : List Char) :
    ∀ bs, charListLe as bs = true → charListLe bs as = true → as = bs := by
  induction as with
  | nil =>
    intro bs h1 h2
    cases bs with
    | nil => rfl
    | cons b bs => exact absurd h2 (by simp [charListLe])
  | cons a as ih =>
    intro bs h1 h2
    cases bs with
    | nil => exact absurd h1 (by simp [charListLe])
    | cons b bs =>
      by_cases hab : a.toNat < b.toNat
      · rw [charListLe, if_neg (Nat.lt_asymm hab), if_pos hab] at h2
        exact absurd h2 (by simp)
      · by_cases hba : b.toNat < a.toNat
        · rw [charListLe, if_neg (Nat.lt_asymm hba), if_pos hba] at h1
          exact absurd h1 (by simp)
        · have hEq : a.toNat = b.toNat := by omega
          rw [charListLe, if_neg hab, if_neg hba] at h1
          rw [charListLe, if_neg hba, if_neg hab] at h2
          rw [toNat_inj_char hEq, ih bs h1 h2]

theorem strLeB_total (a b : String) : strLeB a b = true ∨ strLeB b a = true :=
  charListLe_total a.data b.data

theorem strLeB_antisymm {a b : String} (h1 : strLeB a b = true)
    (h2 : strLeB b a = true) : a = b := by
  cases a with
  | mk da =>
    cases b with
    | mk db =>
      rw [charListLe_antisymm da db h1 h2]

theorem createFriendshipId_comm (a b : String) :
    createFriendshipId b a = createFriendshipId a b := by
  unfold createFriendshipId
  by_cases h1 : strLeB a b = true
  · by_cases h2 : strLeB b a = true
    · rw [if_pos h1, if_pos h2, strLeB_antisymm h1 h2]
    · rw [if_pos h1, if_neg (by simpa using fun e => h2 e)]
  · have h2 : strLeB b a = true := (strLeB_total a b).resolve_left h1
    rw [if_pos h2, if_neg (by simpa using fun e => h1 e)]

theorem sortPair_comm (a b : String) : sortPair b a = sortPair a b := by
  unfold sortPair
  by_cases h1 : strLeB a b = true
  · by_cases h2 : strLeB b a = true
    · rw [if_pos h1, if_pos h2, strLeB_antisymm h1 h2]
    · rw [if_pos h1, if_neg (by simpa using fun e => h2 e)]
  · have h2 : strLeB b a = true := (strLeB_total a b).resolve_left h1
    rw [if_pos h2, if_neg (by simpa using fun e => h1 e)]

theorem all_filter_self (l : List α) (p : α → Bool) : (l.filter p).all p = true := by
  rw [List.all_eq_true]
  intro x hx
  exact (List.mem_filter.mp hx).2

/-! ## Claim C1 — account-deletion cleanup -/

/-- Claim C1, counterexample.  The claim states that after the
account-deletion cleanup for `u` completes, no content item with `u`
as sender or recipient remains, no relationship containing `u`
remains, and the blob namespace of `u` is empty in every category.  On
the store `dbC1` the cleanup leaves the tip sent by `u`, the
friendship containing `u`, and the blob `snaps/u/1` all in place, so
the claim is false. -/
theorem C1_counterexample :
    ((onUserDelete dbC1 ("u")).tips.filter
        (fun kv => (kv.2.senderId == "u") || (kv.2.recipientId == "u"))) ≠ [] ∧
    ((onUserDelete dbC1 ("u")).friendships.filter
        (fun kv => kv.2.members.contains ("u"))) ≠ [] ∧
    ((onUserDelete dbC1 ("u")).blobs.contains ("snaps/u/1")) = true := by
  decide

/-- Claim C1, amended.  The `onUserDelete` cleanup deletes exactly the
user's profile document, the username reservation (when the profile
held a non-empty username), and every blob under the `tips/uid` and
`signals/uid` storage namespaces; all content-item documents, all
relationship documents, and blobs of the other categories are left
untouched. -/
theorem onUserDelete_eq_of_none (db : DB) (uid : String)
    (hg : getDoc db.users uid = none) :
    onUserDelete db uid =
      { db with
          users := deleteDoc db.users uid
          blobs := db.blobs.filter
            (fun p => (!(strStartsWith ("tips/" ++ uid) p)) &&
              (!(strStartsWith ("signals/" ++ uid) p))) } := by
  unfold onUserDelete
  rw [hg]

theorem onUserDelete_eq_of_empty (db : DB) (uid : String) (u : UserDoc)
    (hg : getDoc db.users uid = some u) (he : (u.username == "") = true) :
    onUserDelete db uid =
      { db with
          users := deleteDoc db.users uid
          blobs := db.blobs.filter
            (fun p => (!(strStartsWith ("tips/" ++ uid) p)) &&
              (!(strStartsWith ("signals/" ++ uid) p))) } := by
  unfold onUserDelete
  rw [hg]
  simp only [he, if_true]

theorem onUserDelete_eq_of_some (db : DB) (uid : String) (u : UserDoc)
    (hg : getDoc db.users uid = some u) (he : (u.username == "") = false) :
    onUserDelete db uid =
      { db with
          users := deleteDoc db.users uid
          usernames := deleteDoc db.usernames u.username
          blobs := db.blobs.filter
            (fun p => (!(strStartsWith ("tips/" ++ uid) p)) &&
              (!(strStartsWith ("signals/" ++ uid) p))) } := by
  unfold onUserDelete
  rw [hg]
  simp only [he, Bool.false_eq_true, if_false]

theorem C1_amended (db : DB) (uid : String) :
    getDoc (onUserDelete db uid).users uid = none ∧
    (onUserDelete db uid).tips = db.tips ∧
    (onUserDelete db uid).snaps = db.snaps ∧
    (onUserDelete db uid).signals = db.signals ∧
    (onUserDelete db uid).stories = db.stories ∧
    (onUserDelete db uid).friendships = db.friendships ∧
    ((onUserDelete db uid).blobs.all
        (fun p => (!(strStartsWith ("tips/" ++ uid) p)) &&
          (!(strStartsWith ("signals/" ++ uid) p)))) = true ∧
    (∀ u, getDoc db.users uid = some u → (u.username == "") = false →
      getDoc (onUserDelete db uid).usernames u.username = none) := by
  cases hg : getDoc db.users uid with
  | none =>
    rw [onUserDelete_eq_of_none db uid hg]
    refine ⟨getDoc_deleteDoc_self db.users uid, rfl, rfl, rfl, rfl, rfl,
      all_filter_self _ _, ?_⟩
    intro u hu
    cases hu
  | some u =>
    cases he : (u.username == "") with
    | true =>
      rw [onUserDelete_eq_of_empty db uid u hg he]
      refine ⟨getDoc_deleteDoc_self db.users uid, rfl, rfl, rfl, rfl, rfl,
        all_filter_self _ _, ?_⟩
      intro w hw hne
      cases hw
      rw [he] at hne
      cases hne
    | false =>
      rw [onUserDelete_eq_of_some db uid u hg he]
      refine ⟨getDoc_deleteDoc_self db.users uid, rfl, rfl, rfl, rfl, rfl,
        all_filter_self _ _, ?_⟩
      intro w hw _
      cases hw
      exact getDoc_deleteDoc_self db.usernames u.username

/-- Claim C1, amended, witness at the concrete store `dbC1`. -/
theorem C1_amended_witness :
    getDoc dbC1.users ("u") = some userU ∧ (userU.username == "") = false ∧
    getDoc (onUserDelete dbC1 ("u")).usernames userU.username = none :=
  ⟨by decide, by decide,
    (C1_amended dbC1 ("u")).2.2.2.2.2.2.2 userU (by decide) (by decide)⟩

/-! ## Claim C2 — duplicate-relationship rejection -/

/-- Claim C2, counterexample.  The claim states that when a
relationship for the unordered pair already exists, the second
`sendFriendRequest` call fails with an already-exists error and leaves
the record unchanged.  After `alice` requests `bob`, a pending record
for the pair exists, yet `sendFriendRequest bob alice` succeeds and
overwrites the record with `requestedBy = bob`, so the claim is
false. -/
theorem C2_counterexample :
    (getDoc dbC2mid.friendships (createFriendshipId ("bob") ("alice"))).isSome = true ∧
    exOk (sendFriendRequest dbC2mid ("bob") ("alice") 2) = true ∧
    (match sendFriendRequest dbC2mid ("bob") ("alice") 2 with
     | .ok d => (getDoc d.friendships (createFriendshipId ("alice") ("bob"))).map
         (fun f => f.requestedBy)
     | .error _ => none) = some ("bob") := by
  decide

/-- Claim C2, amended.  Two opposite `sendFriendRequest` calls for a
pair of distinct users never produce two relationship records — both
write to the same canonical pair key, so exactly one record for the
pair exists afterwards — but the second call does not fail: it
succeeds and overwrites the record with a fresh pending request from
the second caller. -/
theorem C2_amended (db : DB) (A B : String) (t1 t2 : Nat) (h : A ≠ B) :
    ∃ db1 db2,
      sendFriendRequest db A B t1 = .ok db1 ∧
      sendFriendRequest db1 B A t2 = .ok db2 ∧
      (db2.friendships.filter (fun kv => kv.1 == createFriendshipId A B)).length = 1 ∧
      getDoc db2.friendships (createFriendshipId A B) =
        some (pendingFriendship B A t2) := by
  have h2 : B ≠ A := fun e => h e.symm
  refine ⟨{ db with friendships := setDoc db.friendships (createFriendshipId A B) (pendingFriendship A B t1) }, { db with friendships := setDoc (setDoc db.friendships (createFriendshipId A B) (pendingFriendship A B t1)) (createFriendshipId A B) (pendingFriendship B A t2) }, ?_, ?_, ?_, ?_⟩
  · rw [sendFriendRequest, if_neg h]
  · rw [sendFriendRequest, if_neg h2, createFriendshipId_comm]
  · rw [setDoc_setDoc_self]
    exact filter_key_setDoc _ _ _
  · rw [setDoc_setDoc_self]
    exact getDoc_setDoc_self _ _ _

/-- Claim C2, amended, witness at concrete users `a` and `b`. -/
theorem C2_amended_witness :
    ("a" : String) ≠ "b" ∧
    (∃ db1 db2,
      sendFriendRequest emptyDB ("a") ("b") 1 = .ok db1 ∧
      sendFriendRequest db1 ("b") ("a") 2 = .ok db2 ∧
      (db2.friendships.filter (fun kv => kv.1 == createFriendshipId ("a") ("b"))).length = 1 ∧
      getDoc db2.friendships (createFriendshipId ("a") ("b")) =
        some (pendingFriendship ("b") ("a") 2)) :=
  ⟨by decide, C2_amended emptyDB ("a") ("b") 1 2 (by decide)⟩

/-! ## Claim C6 — empty broadcast -/

/-- Claim C6, counterexample.  The claim states that a broadcast to
zero friends succeeds, creating zero items.  `createSignalTip` with an
empty friend list instead fails with the no-friends error, so the
claim is false. -/
theorem C6_counterexample :
    createSignalTip emptyDB ("s") [] ("m") none none 0 =
      .error .noFriendsForSignal := rfl

/-- Claim C6, amended.  A broadcast `createSignalTip` with an empty
friend list is rejected with the no-friends error (writing nothing),
for every store and every input — the empty broadcast IS an error in
this code base. -/
theorem C6_amended (db : DB) (s m : String) (tk tp : Option String) (now : Nat) :
    createSignalTip db s [] m tk tp now = .error .noFriendsForSignal := rfl

/-! ## Claim C10 — friend-request overwrite semantics -/

/-- Claim C10.  For distinct users, `sendFriendRequest A B`
unconditionally overwrites the document at the canonical pair key:
afterwards the pair's relationship is `pending` with
`requestedBy = A`, regardless of any prior state, and no other
relationship document is affected. -/
theorem C10_theorem (db : DB) (A B : String) (now : Nat) (h : A ≠ B) :
    ∃ db2, sendFriendRequest db A B now = .ok db2 ∧
      getDoc db2.friendships (createFriendshipId A B) =
        some (pendingFriendship A B now) ∧
      (∀ k, k ≠ createFriendshipId A B →
        getDoc db2.friendships k = getDoc db.friendships k) := by
  refine ⟨{ db with friendships := setDoc db.friendships (createFriendshipId A B) (pendingFriendship A B now) }, ?_, ?_, ?_⟩
  · rw [sendFriendRequest, if_neg h]
  · exact getDoc_setDoc_self _ _ _
  · intro k hk
    exact getDoc_setDoc_ne _ _ _ _ hk

/-! ## Claim C5 — consumption idempotence and NotFound -/

theorem markTipAsViewed_none (db : DB) (id : String)
    (h : getDoc db.tips id = none) :
    markTipAsViewed db id = .error .notFound := by
  unfold markTipAsViewed
  rw [h]

theorem markTipAsViewed_some (db : DB) (id : String) (t : TipDoc)
    (h : getDoc db.tips id = some t) :
    markTipAsViewed db id =
      .ok { db with tips := setDoc db.tips id ({ t with viewed := true }) } := by
  unfold markTipAsViewed
  rw [h]

theorem markSnapAsViewed_none (db : DB) (id : String)
    (h : getDoc db.snaps id = none) :
    markSnapAsViewed db id = db := by
  unfold markSnapAsViewed
  rw [h]

theorem markSnapAsViewed_some (db : DB) (id : String) (s : SnapDoc)
    (h : getDoc db.snaps id = some s) :
    markSnapAsViewed db id =
      { db with snaps := setDoc db.snaps id ({ s with viewed := true }) } := by
  unfold markSnapAsViewed
  rw [h]

theorem markTipAsViewed_preserves_others (db db3 : DB) (tid k : String)
    (h : markTipAsViewed db tid = .ok db3) (hk : k ≠ tid) :
    getDoc db3.tips k = getDoc db.tips k := by
  cases hg : getDoc db.tips tid with
  | none =>
    rw [markTipAsViewed_none db tid hg] at h
    cases h
  | some t =>
    rw [markTipAsViewed_some db tid t hg] at h
    cases h
    exact getDoc_setDoc_ne _ _ _ _ hk

/-- Claim C5, counterexample.  The claim states that `markConsumed` on
a missing item fails with a not-found error.  The snap flavour,
`markSnapAsViewed`, swallows the failure: on a store with no such snap
it returns normally and changes nothing, so the claim is false. -/
theorem C5_counterexample :
    getDoc emptyDB.snaps ("zzz") = none ∧
    markSnapAsViewed emptyDB ("zzz") = emptyDB :=
  ⟨rfl, rfl⟩

/-- Claim C5, amended.  Marking consumed sets `viewed` to true, never
un-flips it, is idempotent (marking twice equals marking once, with no
error on the second call), and leaves every other document unchanged.
On a missing item the tip flavour (`markTipAsViewed`) fails with the
not-found error, but the snap flavour (`markSnapAsViewed`) swallows
the error and returns the store unchanged. -/
theorem C5_amended (db : DB) (id : String) :
    (getDoc db.tips id = none → markTipAsViewed db id = .error .notFound) ∧
    (∀ t, getDoc db.tips id = some t →
      ∃ db2, markTipAsViewed db id = .ok db2 ∧
        getDoc db2.tips id = some ({ t with viewed := true }) ∧
        markTipAsViewed db2 id = .ok db2 ∧
        (∀ k, k ≠ id → getDoc db2.tips k = getDoc db.tips k)) ∧
    (getDoc db.snaps id = none → markSnapAsViewed db id = db) ∧
    markSnapAsViewed (markSnapAsViewed db id) id = markSnapAsViewed db id := by
  refine ⟨markTipAsViewed_none db id, ?_, markSnapAsViewed_none db id, ?_⟩
  · intro t h
    refine ⟨{ db with tips := setDoc db.tips id ({ t with viewed := true }) },
      markTipAsViewed_some db id t h, getDoc_setDoc_self _ _ _, ?_, ?_⟩
    · rw [markTipAsViewed_some _ id ({ t with viewed := true }) (getDoc_setDoc_self _ _ _)]
      simp only [setDoc_setDoc_self]
    · intro k hk
      exact getDoc_setDoc_ne _ _ _ _ hk
  · cases h : getDoc db.snaps id with
    | none =>
      rw [markSnapAsViewed_none db id h, markSnapAsViewed_none db id h]
    | some s =>
      rw [markSnapAsViewed_some db id s h]
      rw [markSnapAsViewed_some _ id ({ s with viewed := true }) (getDoc_setDoc_self _ _ _)]
      simp only [setDoc_setDoc_self]

/-- Claim C5, amended, witness at the store `dbC5` holding the tip
`t1`. -/
theorem C5_amended_witness :
    ∃ db2, markTipAsViewed dbC5 ("t1") = .ok db2 ∧
      getDoc db2.tips ("t1") = some ({ tipFromU with viewed := true }) ∧
      markTipAsViewed db2 ("t1") = .ok db2 ∧
      (∀ k, k ≠ "t1" → getDoc db2.tips k = getDoc dbC5.tips k) :=
  (C5_amended dbC5 ("t1")).2.1 tipFromU (by decide)

/-! ## Claim C3 — inbox read contract -/

/-- Claim C3, counterexample.  The claim states that the inbox read
returns exactly the non-consumed, non-expired items addressed to the
user.  The snap subscription (`subscribeToSnaps`) does not filter on
`viewed`: on the store `dbC3` it returns the snap `s1` even though
that snap is already consumed, so the claim is false. -/
theorem C3_counterexample :
    snapViewed.viewed = true ∧
    (("s1", snapViewed) ∈ subscribeToSnaps dbC3 ("u") 50) := by
  exact ⟨rfl, by decide⟩

/-- Claim C3, amended.  The tips query (`getTipsForUser`) returns
exactly the tips addressed to the user that are unviewed and unexpired,
newest-first by creation time.  The snap subscription
(`subscribeToSnaps`) filters only on recipient and expiry — consumed
snaps are still returned — and orders by expiry time descending.
Neither read ever returns an item whose expiry is at or before the
query time. -/
theorem C3_amended (db : DB) (u : String) (now : Nat) (kv : String × TipDoc)
    (sv : String × SnapDoc) :
    (kv ∈ getTipsForUser db u now ↔
      kv ∈ db.tips ∧ kv.2.recipientId = u ∧ kv.2.viewed = false ∧ now < kv.2.expiresAt) ∧
    List.Sorted (fun a b => b.2.createdAt ≤ a.2.createdAt) (getTipsForUser db u now) ∧
    (sv ∈ subscribeToSnaps db u now ↔
      sv ∈ db.snaps ∧ sv.2.recipientId = u ∧ now < sv.2.expiresAt) ∧
    List.Sorted (fun a b => b.2.expiresAt ≤ a.2.expiresAt) (subscribeToSnaps db u now) := by
  refine ⟨?_, ?_, ?_, ?_⟩
  · rw [getTipsForUser, List.mem_insertionSort, List.mem_filter]
    simp only [Bool.and_eq_true, beq_iff_eq, decide_eq_true_eq, and_assoc]
  · haveI : IsTotal (String × TipDoc) (fun a b => b.2.createdAt ≤ a.2.createdAt) :=
      ⟨fun a b => Nat.le_total b.2.createdAt a.2.createdAt⟩
    haveI : IsTrans (String × TipDoc) (fun a b => b.2.createdAt ≤ a.2.createdAt) :=
      ⟨fun _ _ _ h1 h2 => Nat.le_trans h2 h1⟩
    exact List.sorted_insertionSort _ _
  · rw [subscribeToSnaps, List.mem_insertionSort, List.mem_filter]
    simp only [Bool.and_eq_true, beq_iff_eq, decide_eq_true_eq, and_assoc]
  · haveI : IsTotal (String × SnapDoc) (fun a b => b.2.expiresAt ≤ a.2.expiresAt) :=
      ⟨fun a b => Nat.le_total b.2.expiresAt a.2.expiresAt⟩
    haveI : IsTrans (String × SnapDoc) (fun a b => b.2.expiresAt ≤ a.2.expiresAt) :=
      ⟨fun _ _ _ h1 h2 => Nat.le_trans h2 h1⟩
    exact List.sorted_insertionSort _ _

/-! ## Claim C4 — broadcast fan-out materialization -/

theorem mkSignalTipDocs_length (baseId : Nat) (s : String) (fids : List String)
    (m : String) (tk tp : Option String) (now : Nat) :
    (mkSignalTipDocs baseId s fids m tk tp now).length = fids.length := by
  induction fids generalizing baseId with
  | nil => rfl
  | cons f rest ih => simp [mkSignalTipDocs, ih]

theorem mkSignalTipDocs_recipients (baseId : Nat) (s : String)
    (fids : List String) (m : String) (tk tp : Option String) (now : Nat) :
    (mkSignalTipDocs baseId s fids m tk tp now).map (fun kv => kv.2.recipientId) =
      fids := by
  induction fids generalizing baseId with
  | nil => rfl
  | cons f rest ih => simp [mkSignalTipDocs, mkSignalTipDoc, ih]

theorem mkSignalTipDocs_mem (baseId : Nat) (s : String) (fids : List String)
    (m : String) (tk tp : Option String) (now : Nat) (kv : String × TipDoc)
    (hkv : kv ∈ mkSignalTipDocs baseId s fids m tk tp now) :
    kv.2.viewed = false ∧ kv.2.isSignal = true ∧ kv.2.senderId = s ∧
      kv.2.createdAt = now ∧ kv.2.expiresAt = now + dayMs := by
  induction fids generalizing baseId with
  | nil => cases hkv
  | cons f rest ih =>
    rcases List.mem_cons.mp hkv with he | hm
    · subst he
      exact ⟨rfl, rfl, rfl, rfl, rfl⟩
    · exact ih (baseId + 1) hm

/-- Claim C4, counterexample.  The claim states that every broadcast
creation writes one content item per current friend.  On the store
`dbC4` the sender `s` has two accepted friends, yet the
signal-collection broadcast path (`createSignal`) writes exactly one
document — the audience is joined at read time by
`getFriendsSignals`, not materialized per friend — so the claim is
false. -/
theorem C4_counterexample :
    (friendIdsOf dbC4 ("s")).length = 2 ∧
    (createSignal dbC4 ("s") 10).1.signals.length = 1 := by
  decide

/-- Claim C4, amended.  The tip broadcast path (`createSignalTip`)
does materialize the fan-out: with a non-empty friend list it writes
exactly one tip document per friend, each addressed to that single
friend, each starting unconsumed, and marking one of them consumed or
deleting one of them leaves every other document unchanged.  The
signal path (`createSignal`) instead writes a single document whose
audience is computed at read time. -/
theorem C4_amended (db : DB) (s m : String) (tk tp : Option String)
    (fids : List String) (now : Nat) (h : fids ≠ []) :
    ∃ db2, createSignalTip db s fids m tk tp now = .ok db2 ∧
      db2.tips = db.tips ++ mkSignalTipDocs db.nextId s fids m tk tp now ∧
      (mkSignalTipDocs db.nextId s fids m tk tp now).length = fids.length ∧
      (mkSignalTipDocs db.nextId s fids m tk tp now).map (fun kv => kv.2.recipientId) = fids ∧
      (∀ kv, kv ∈ mkSignalTipDocs db.nextId s fids m tk tp now →
        kv.2.viewed = false ∧ kv.2.isSignal = true ∧ kv.2.senderId = s) ∧
      (∀ tid db3, markTipAsViewed db2 tid = .ok db3 →
        ∀ k, k ≠ tid → getDoc db3.tips k = getDoc db2.tips k) ∧
      (∀ tid k, k ≠ tid → getDoc (deleteTip db2 tid).tips k = getDoc db2.tips k) ∧
      ∀ db4, (createSignal db4 s now).1.signals.length = db4.signals.length + 1 := by
  refine ⟨{ db with tips := db.tips ++ mkSignalTipDocs db.nextId s fids m tk tp now, nextId := db.nextId + fids.length }, ?_, rfl,
    mkSignalTipDocs_length db.nextId s fids m tk tp now,
    mkSignalTipDocs_recipients db.nextId s fids m tk tp now, ?_, ?_, ?_, ?_⟩
  · rw [createSignalTip, if_neg (fun e => h (List.isEmpty_iff.mp e))]
  · intro kv hkv
    exact ⟨(mkSignalTipDocs_mem db.nextId s fids m tk tp now kv hkv).1,
      (mkSignalTipDocs_mem db.nextId s fids m tk tp now kv hkv).2.1,
      (mkSignalTipDocs_mem db.nextId s fids m tk tp now kv hkv).2.2.1⟩
  · intro tid db3 hmk k hk
    exact markTipAsViewed_preserves_others _ db3 tid k hmk hk
  · intro tid k hk
    exact getDoc_deleteDoc_ne _ _ _ hk
  · intro db4
    simp [createSignal]

/-- Claim C4, amended, witness: a broadcast tip to the two friends
`f1` and `f2`. -/
theorem C4_amended_witness :
    (["f1", "f2"] : List String) ≠ [] ∧
    (∃ db2, createSignalTip emptyDB ("s") (["f1", "f2"]) ("m") none none 5 = .ok db2 ∧
      db2.tips = emptyDB.tips ++ mkSignalTipDocs emptyDB.nextId ("s") (["f1", "f2"]) ("m") none none 5 ∧
      (mkSignalTipDocs emptyDB.nextId ("s") (["f1", "f2"]) ("m") none none 5).length = (["f1", "f2"] : List String).length ∧
      (mkSignalTipDocs emptyDB.nextId ("s") (["f1", "f2"]) ("m") none none 5).map (fun kv => kv.2.recipientId) = ["f1", "f2"] ∧
      (∀ kv, kv ∈ mkSignalTipDocs emptyDB.nextId ("s") (["f1", "f2"]) ("m") none none 5 →
        kv.2.viewed = false ∧ kv.2.isSignal = true ∧ kv.2.senderId = "s") ∧
      (∀ tid db3, markTipAsViewed db2 tid = .ok db3 →
        ∀ k, k ≠ tid → getDoc db3.tips k = getDoc db2.tips k) ∧
      (∀ tid k, k ≠ tid → getDoc (deleteTip db2 tid).tips k = getDoc db2.tips k) ∧
      ∀ db4, (createSignal db4 ("s") 5).1.signals.length = db4.signals.length + 1) :=
  ⟨by decide, C4_amended emptyDB ("s") ("m") none none (["f1", "f2"]) 5 (by decide)⟩

/-- Claim C10, witness at the store `dbC10`, where alice and bob are
already accepted friends: the call still succeeds and resets the pair
to a pending request from alice. -/
theorem C10_theorem_witness :
    ("alice" : String) ≠ "bob" ∧
    (∃ db2, sendFriendRequest dbC10 ("alice") ("bob") 7 = .ok db2 ∧
      getDoc db2.friendships (createFriendshipId ("alice") ("bob")) =
        some (pendingFriendship ("alice") ("bob") 7) ∧
      (∀ k, k ≠ createFriendshipId ("alice") ("bob") →
        getDoc db2.friendships k = getDoc dbC10.friendships k)) :=
  ⟨by decide, C10_theorem dbC10 ("alice") ("bob") 7 (by decide)⟩

/-! ## Claim C7 — symbol-tag validation -/

theorem toUpper_of_letter (c : Char) (h : isAsciiLetterChar c = true) :
    isUpperLetterChar (Char.toUpper c) = true := by
  simp only [isAsciiLetterChar, Bool.or_eq_true, Bool.and_eq_true,
    decide_eq_true_eq] at h
  simp only [Char.toUpper]
  by_cases hl : c.toNat ≥ 97 ∧ c.toNat ≤ 122
  · rw [if_pos hl]
    have hv : (c.toNat - 32).isValidChar := Or.inl (by omega)
    have ht : (Char.ofNat (c.toNat - 32)).toNat = c.toNat - 32 := by
      rw [Char.ofNat, dif_pos hv]
      rfl
    simp only [isUpperLetterChar, ht, Bool.and_eq_true, decide_eq_true_eq]
    omega
  · rw [if_neg hl]
    simp only [isUpperLetterChar, Bool.and_eq_true, decide_eq_true_eq]
    omega

/-- Claim C7, counterexample.  The claim states that a symbol tag that
does not normalize to 1–5 uppercase letters makes the operation fail
rather than be stored or truncated.  The normalization in the UI
silently truncates `toolong!x` to `TOOLO` and maps a letterless input
to the empty string, and `createTip` stores whatever it is given with
no validation error, so the claim is false. -/
theorem C7_counterexample :
    handleTickerChange ("toolong!x") = "TOOLO" ∧
    handleTickerChange ("12 3!") = "" ∧
    (createTip emptyDB ("s") ("r") ("m") (some (handleTickerChange ("toolong!x"))) none 0).1.tips =
      [("0", mkTipDoc ("s") ("r") ("m") (some ("TOOLO")) none 0)] := by
  decide

/-- Claim C7, amended.  Normalization (`handleTickerChange`) strips
non-letters, uppercases, and silently truncates: the result is always
at most 5 characters, every character of it is an uppercase ASCII
letter, and `createTip` stores the given tag verbatim (the empty
string when none is given) — no rejection path exists. -/
theorem C7_amended (text : String) (db : DB) (s r m : String)
    (tk tp : Option String) (now : Nat) :
    (handleTickerChange text).length ≤ 5 ∧
    (∀ c, c ∈ (handleTickerChange text).data → isUpperLetterChar c = true) ∧
    (createTip db s r m tk tp now).1.tips =
      db.tips ++ [(toString db.nextId, mkTipDoc s r m tk tp now)] ∧
    (mkTipDoc s r m tk tp now).ticker = tk.getD ("") := by
  refine ⟨?_, ?_, rfl, rfl⟩
  · have he : (handleTickerChange text).length =
        (((text.data.filter isAsciiLetterChar).map Char.toUpper).take 5).length := rfl
    rw [he, List.length_take]
    exact min_le_left _ _
  · intro c hc
    have hc2 : c ∈ ((text.data.filter isAsciiLetterChar).map Char.toUpper).take 5 := hc
    have hc3 := List.mem_of_mem_take hc2
    rcases List.mem_map.mp hc3 with ⟨d, hd, he⟩
    rw [← he]
    exact toUpper_of_letter d (List.mem_filter.mp hd).2

/-- Claim C7, amended, witness at the mixed-case input `ab!`. -/
theorem C7_amended_witness :
    (handleTickerChange ("ab!")).length ≤ 5 ∧ isUpperLetterChar ('A') = true :=
  ⟨(C7_amended ("ab!") emptyDB ("s") ("r") ("m") none none 0).1,
   (C7_amended ("ab!") emptyDB ("s") ("r") ("m") none none 0).2.1 ('A') (by decide)⟩

/-! ## Claim C8 — expiry stamping -/

/-- Claim C8.  On every creation path — direct tip, fanned-out signal
tip, snap, story, and signal — the stored expiry timestamp equals the
stored creation timestamp plus the fixed 24-hour TTL, both stamped at
creation time from the single creation clock `now`; reads only filter
on the stored `expiresAt`, never recomputing it. -/
theorem C8_theorem (db : DB) (s r m dn : String) (tk tp : Option String)
    (fids : List String) (now : Nat) :
    (mkTipDoc s r m tk tp now).expiresAt = (mkTipDoc s r m tk tp now).createdAt + dayMs ∧
    ((mkSignalTipDocs db.nextId s fids m tk tp now).all
        (fun kv => kv.2.expiresAt == kv.2.createdAt + dayMs)) = true ∧
    (mkSnapDoc s dn r m now).expiresAt = (mkSnapDoc s dn r m now).createdAt + dayMs ∧
    (mkStoryDoc s m now).expiresAt = (mkStoryDoc s m now).createdAt + dayMs ∧
    (mkSignalDoc s m now).expiresAt = (mkSignalDoc s m now).createdAt + dayMs := by
  refine ⟨rfl, ?_, rfl, rfl, rfl⟩
  rw [List.all_eq_true]
  intro kv hkv
  rw [beq_iff_eq, (mkSignalTipDocs_mem db.nextId s fids m tk tp now kv hkv).2.2.2.2,
    (mkSignalTipDocs_mem db.nextId s fids m tk tp now kv hkv).2.2.2.1]

/-! ## Claim C9 — sign-up atomicity -/

/-- Claim C9.  Sign-up writes the profile document and the username
reservation all-or-nothing: when the derived username is already
reserved the transaction aborts with the username-taken error and no
document is written, and when sign-up succeeds both the profile
document and the reservation exist, the username having been free
before. -/
theorem C9_theorem (db : DB) (uid email dn : String) (now : Nat) :
    ((usernameFromEmail email).length ≤ 24 →
      (getDoc db.usernames (usernameFromEmail email)).isSome = true →
      signUp db uid email dn now = .error .usernameTaken) ∧
    (∀ db2, signUp db uid email dn now = .ok db2 →
      getDoc db.usernames (usernameFromEmail email) = none ∧
      getDoc db2.users uid =
        some (mkUserProfile uid (usernameFromEmail email) dn email now) ∧
      getDoc db2.usernames (usernameFromEmail email) = some uid) := by
  constructor
  · intro hlen hsome
    rw [signUp, if_neg (by omega : ¬(usernameFromEmail email).length > 24),
      if_pos hsome]
  · intro db2 hok
    rw [signUp] at hok
    by_cases hlen : (usernameFromEmail email).length > 24
    · rw [if_pos hlen] at hok
      cases hok
    · rw [if_neg hlen] at hok
      by_cases hsome : (getDoc db.usernames (usernameFromEmail email)).isSome = true
      · rw [if_pos hsome] at hok
        cases hok
      · rw [if_neg hsome] at hok
        cases hok
        refine ⟨?_, getDoc_setDoc_self _ _ _, getDoc_setDoc_self _ _ _⟩
        cases hg : getDoc db.usernames (usernameFromEmail email) with
        | none => rfl
        | some v =>
          rw [hg] at hsome
          exact absurd rfl hsome

/-- Claim C9, witness: the taken-username case on the store `dbC9` and
the successful case on the empty store. -/
theorem C9_theorem_witness :
    signUp dbC9 ("u2") ("alice@x.com") ("A") 3 = .error .usernameTaken ∧
    (getDoc emptyDB.usernames (usernameFromEmail ("alice@x.com")) = none ∧
      getDoc dbSignedUp.users ("u1") =
        some (mkUserProfile ("u1") (usernameFromEmail ("alice@x.com")) ("A") ("alice@x.com") 3) ∧
      getDoc dbSignedUp.usernames (usernameFromEmail ("alice@x.com")) = some ("u1")) :=
  ⟨(C9_theorem dbC9 ("u2") ("alice@x.com") ("A") 3).1 (by decide) (by decide),
   (C9_theorem emptyDB ("u1") ("alice@x.com") ("A") 3).2 dbSignedUp rfl⟩

end SnapConnect
